import Mathlib

/-!
Shallow embedding of the packmol configuration-generation node
(ipsuite/configuration_generation/packmol.py) and proofs about it.

The embedding covers: the version probe (get_packmol_version, with the
subprocess launch and banner capture abstracted into an outcome value),
the parameter validation performed at construction time, the box
resolution from density (the external density-to-box estimator is an
abstract function parameter), the generated packmol input scripts of
both the single-configuration and the multi-configuration node, the
random conformer sampling of the multi-configuration node (the numpy
generator is modelled as an abstract bounded deterministic stream
indexed by seed and draw counter), and the post-hoc stamping of cell
and periodicity flags on the structures read back from the solver.
-/

unseal Rat.mul Rat.sub Rat.add Rat.inv

/-! ## Basic string helpers (explicit, kernel-computable) -/

/-- Boolean test that the first list is an initial segment of the second. -/
def leadsWith : List Char → List Char → Bool
  | [], _ => true
  | _ :: _, [] => false
  | a :: as, b :: bs => if a = b then leadsWith as bs else false

/-- Boolean test that the first list occurs contiguously inside the second. -/
def occursIn (p : List Char) : List Char → Bool
  | [] => leadsWith p []
  | c :: rest => leadsWith p (c :: rest) || occursIn p rest

/-- Substring test on strings. -/
def strContains (s pat : String) : Bool := occursIn pat.data s.data

/-- Test that pat is an initial segment of s. -/
def strLeads (s pat : String) : Bool := leadsWith pat.data s.data

/-! ## Numeric rendering

Python renders the box coordinates with the format specifier .4f
(fixed point, exactly four fractional digits, round half to even) and
the tolerance with the default float conversion (shortest decimal).
Floats are modelled as rationals carrying their exact decimal value. -/

/-- Absolute value of a rational, written as an explicit conditional so
that it evaluates inside the kernel. -/
def qAbs (q : ℚ) : ℚ := if q < 0 then -q else q

/-- Round q (scaled by 10000) to the nearest integer, ties to even. -/
def rnd4 (q : ℚ) : ℤ :=
  let s : ℚ := q * 10000
  let f : ℤ := s.floor
  let r : ℚ := s - (f : ℚ)
  if r < 1 / 2 then f
  else if 1 / 2 < r then f + 1
  else if f % 2 = 0 then f else f + 1

/-- Zero-padded four-digit decimal rendering of r (for r below 10000). -/
def pad4 (r : ℕ) : String :=
  String.mk [Nat.digitChar (r / 1000 % 10), Nat.digitChar (r / 100 % 10),
    Nat.digitChar (r / 10 % 10), Nat.digitChar (r % 10)]

/-- Model of the Python format specifier .4f applied to a float. -/
def fmt4 (q : ℚ) : String :=
  let m : ℕ := (rnd4 (qAbs q)).toNat
  (if q < 0 then "-" else "") ++ toString (m / 10000) ++ "." ++ pad4 (m % 10000)

/-- Fractional decimal digits of f (0 ≤ f < 1), with a fuel bound,
stopping when the remainder is exhausted. -/
def fracDigits : ℕ → ℚ → List Char
  | 0, _ => []
  | fuel + 1, f =>
    if f = 0 then []
    else
      let f10 : ℚ := f * 10
      let d : ℤ := f10.floor
      Nat.digitChar d.toNat :: fracDigits fuel (f10 - (d : ℚ))

/-- Model of the Python default string conversion of a float, for floats
whose value is an exactly representable short decimal: integer part,
a dot, and the fractional digits (at least one, no trailing zeros
beyond the first). -/
def pyFloatStr (q : ℚ) : String :=
  let sgn := if q < 0 then "-" else ""
  let a : ℚ := qAbs q
  let ip : ℕ := a.floor.toNat
  let ds := fracDigits 17 (a - (a.floor : ℚ))
  sgn ++ toString ip ++ "." ++ (if ds.isEmpty then "0" else String.mk ds)

/-! ## Version probe (get_packmol_version) -/

/-- Maximal run of decimal digits at the head of a character list,
paired with the remainder. -/
def takeDigits : List Char → List Char × List Char
  | [] => ([], [])
  | c :: cs =>
    if c.isDigit then
      let p := takeDigits cs
      (c :: p.1, p.2)
    else ([], c :: cs)

/-- Match the regular expression for a dotted version number
(one or more digits, dot, digits, dot, digits) at the head of the list,
returning the matched characters. -/
def matchVerNum (l : List Char) : Option (List Char) :=
  let p1 := takeDigits l
  if p1.1 = [] then none
  else
    match p1.2 with
    | '.' :: r2 =>
      let p2 := takeDigits r2
      if p2.1 = [] then none
      else
        match p2.2 with
        | '.' :: r4 =>
          let p3 := takeDigits r4
          if p3.1 = [] then none
          else some (p1.1 ++ '.' :: p2.1 ++ '.' :: p3.1)
        | _ => none
    | _ => none

/-- Drop the literal first list from the head of the second, or fail. -/
def dropLit : List Char → List Char → Option (List Char)
  | [], l => some l
  | _ :: _, [] => none
  | a :: as, b :: bs => if a = b then dropLit as bs else none

/-- Leftmost search for the pattern Version (digits.digits.digits),
as performed by re.search in get_packmol_version, returning the
captured group. -/
def searchVersion : List Char → Option (List Char)
  | [] => none
  | c :: rest =>
    match dropLit ("Version ").data (c :: rest) with
    | some r =>
      match matchVerNum r with
      | some cap => some cap
      | none => searchVersion rest
    | none => searchVersion rest

/-- Outcome of the subprocess interaction inside get_packmol_version:
either the Popen call (or the surrounding machinery) raises before a
banner is captured, or a banner text is captured by the reader thread. -/
inductive ProbeOutcome where
  | launchFailure (msg : String)
  | banner (text : String)

/-- Model of get_packmol_version: scan the captured banner for the
version pattern and return the captured group; any exception, including
the ValueError raised when no version is found, is caught by the
enclosing handler which returns a string starting with
"An error occurred:" instead. -/
def getPackmolVersion : ProbeOutcome → String
  | ProbeOutcome.launchFailure msg => "An error occurred: " ++ msg
  | ProbeOutcome.banner t =>
    match searchVersion t.data with
    | some cap => String.mk cap
    | none =>
      "An error occurred: " ++ ("Could not find version in packmol output: " ++ t)

/-- Model of int(version.replace(".", "")): drop the dots and read the
remaining digits as a decimal integer. -/
def versionToInt (s : String) : ℕ :=
  (s.data.filter (fun c => c ≠ '.')).foldl (fun n c => 10 * n + (c.toNat - 48)) 0

/-! ## Script building (Packmol.run)

The multi-line Python f-strings are reproduced verbatim, including
their indentation, as concatenations of string literals with the
interpolated values. -/

/-- Join the formatted box coordinates with single spaces, as done by
the join over the list comprehension in the source. -/
def boxStr4 (box : List ℚ) : String :=
  String.intercalate " " (box.map fmt4)

/-- The shared scaled-box computation of Packmol.run and
MultiPackmol.run: with pbc and a probed version at least 20150 the box
is used as is (and a pbc directive is emitted separately); with pbc and
an older version every axis is shrunk by twice the tolerance; without
pbc the box is used as is. -/
def scaledBoxCalc (pbc : Bool) (vInt : ℕ) (tolerance : ℚ) (box : List ℚ) : List ℚ :=
  if pbc ∧ 20150 ≤ vInt then box
  else if pbc ∧ vInt < 20150 then box.map (fun x => x - 2 * tolerance)
  else box

/-- Header of the single-configuration script: tolerance, filetype and
output declarations. -/
def packmolHeader (tolerance : ℚ) : String :=
  "\n        tolerance " ++ pyFloatStr tolerance ++
    "\n        filetype xyz\n        output mixture.xyz\n        "

/-- The pbc directive chunk appended for new solver versions. -/
def pbcChunk (box : List ℚ) : String :=
  "\n            pbc " ++ boxStr4 box ++ "\n            "

/-- One structure block of the single-configuration script: coordinate
file named by the species index, the declared placement count, and the
inside box constraint with lower corner at the origin. -/
def structBlock (idx count : ℕ) (scaledBox : List ℚ) : String :=
  "\n            structure " ++ toString idx ++
    ".xyz\n                number " ++ toString count ++
    "\n                inside box 0 0 0 " ++ boxStr4 scaledBox ++
    "\n            end structure\n            "

/-- All structure blocks of the single-configuration script, one per
entry of the count list, indexed by position. -/
def structBlocks (counts : List ℕ) (scaledBox : List ℚ) : List String :=
  counts.enum.map (fun p => structBlock p.1 p.2 scaledBox)

/-- The full generated single-configuration script, as a function of
tolerance, requested box, pbc flag, probed version string and counts. -/
def packmolScript (tolerance : ℚ) (box : List ℚ) (pbc : Bool) (versionString : String)
    (counts : List ℕ) : String :=
  let vInt := versionToInt versionString
  let scaled := scaledBoxCalc pbc vInt tolerance box
  let base :=
    if pbc ∧ 20150 ≤ vInt then packmolHeader tolerance ++ pbcChunk box
    else packmolHeader tolerance
  base ++ String.join (structBlocks counts scaled)

/-! ## Random sampling (MultiPackmol.run)

The numpy global generator is modelled as a deterministic stream: a
state carrying the seed installed by np.random.seed and a draw counter,
together with an abstract draw function mapping seed, counter and pool
size to the sampled index.  Uniformity of the draws is a property of
the external generator and lives in the draw function; the code-level
content (reseeding, threading of the global state, draw counts, with
replacement, bounds) is explicit. -/

/-- Global numpy generator state: the installed seed and the number of
draws made so far. -/
structure RngState where
  seed : ℕ
  counter : ℕ

/-- Model of np.random.seed: installs the seed, discarding whatever
state the global generator was in. -/
def npSeed (s : ℕ) (_g : RngState) : RngState := RngState.mk s 0

/-- Model of np.random.choice(P, count) with the default replace=True:
count successive draws from the stream, each from the range below P. -/
def npChoiceList (draw : ℕ → ℕ → ℕ → ℕ) (P : ℕ) : ℕ → RngState → List ℕ × RngState
  | 0, st => ([], st)
  | c + 1, st =>
    let k := draw st.seed st.counter P
    let rest := npChoiceList draw P c (RngState.mk st.seed (st.counter + 1))
    (k :: rest.1, rest.2)

/-- The choices drawn for one configuration: one choice list per
species, drawn in species order with the state threaded through. -/
def speciesChoices (draw : ℕ → ℕ → ℕ → ℕ) :
    List ℕ → List ℕ → RngState → List (List ℕ) × RngState
  | P :: ps, c :: cs, st =>
    let one := npChoiceList draw P c st
    let rest := speciesChoices draw ps cs one.2
    (one.1 :: rest.1, rest.2)
  | _, _, st => ([], st)

/-- The choices drawn for all configurations, configuration by
configuration, with the state threaded through. -/
def configChoices (draw : ℕ → ℕ → ℕ → ℕ) (pools counts : List ℕ) :
    ℕ → RngState → List (List (List ℕ)) × RngState
  | 0, st => ([], st)
  | n + 1, st =>
    let cfg := speciesChoices draw pools counts st
    let rest := configChoices draw pools counts n cfg.2
    (cfg.1 :: rest.1, rest.2)

/-- The complete sampled index sequences of one MultiPackmol.run call:
np.random.seed(seed) is executed first, then the draws happen in
configuration-major, species-minor order.  The pool sizes are the
lengths of the per-species conformer lists. -/
def multiPackmolChoices (draw : ℕ → ℕ → ℕ → ℕ) (seed : ℕ) (pools counts : List ℕ)
    (n : ℕ) (g : RngState) : List (List (List ℕ)) :=
  (configChoices draw pools counts n (npSeed seed g)).1

/-! ## Script building (MultiPackmol.run) -/

/-- Header of the multi-configuration script head: tolerance and
filetype only; the output declaration is per configuration. -/
def multiHeader (tolerance : ℚ) : String :=
  "\n        tolerance " ++ pyFloatStr tolerance ++ "\n        filetype xyz\n        "

/-- The per-configuration output declaration. -/
def multiOutputLine (idx : ℕ) : String :=
  "\n            output mixture_" ++ toString idx ++ ".xyz\n            "

/-- One structure block of the multi-configuration script: coordinate
file named by species index and sampled conformer index, always a
single copy, and the inside box constraint. -/
def multiStructBlock (jdx kdx : ℕ) (scaledBox : List ℚ) : String :=
  "\n                    structure " ++ toString jdx ++ "_" ++ toString kdx ++
    ".xyz\n                        number 1\n                        inside box 0 0 0 " ++
    boxStr4 scaledBox ++ "\n                    end structure\n                    "

/-- All structure blocks of one configuration, given the sampled
conformer indices per species: for species jdx with sampled indices ks,
one block per sampled index, in sampling order. -/
def configBlocks (scaledBox : List ℚ) (cfg : List (List ℕ)) : String :=
  String.join (cfg.enum.map (fun p =>
    String.join (p.2.map (fun k => multiStructBlock p.1 k scaledBox))))

/-- The generated multi-configuration scripts, one per configuration.
The sampling is drawn exactly as in multiPackmolChoices (script text
consumes no randomness, so drawing all choices first is equivalent to
the interleaved building in the source). -/
def multiPackmolScripts (draw : ℕ → ℕ → ℕ → ℕ) (seed : ℕ) (tolerance : ℚ)
    (box : List ℚ) (pbc : Bool) (versionString : String) (pools counts : List ℕ)
    (n : ℕ) (g : RngState) : List String :=
  let vInt := versionToInt versionString
  let scaled := scaledBoxCalc pbc vInt tolerance box
  let head :=
    if pbc ∧ 20150 ≤ vInt then multiHeader tolerance ++ pbcChunk box
    else multiHeader tolerance
  (multiPackmolChoices draw seed pools counts n g).enum.map
    (fun p => head ++ multiOutputLine p.1 ++ configBlocks scaled p.2)

/-! ## Construction-time validation and box resolution -/

/-- The box parameter as accepted at construction: absent, a scalar, or
a vector of axis lengths. -/
inductive BoxParam where
  | noBox
  | scalar (x : ℚ)
  | vec (v : List ℚ)
deriving DecidableEq

/-- Scalar boxes are broadcast to a cube, mirroring the isinstance
check at the end of the post-init hook. -/
def broadcastBox : BoxParam → BoxParam
  | BoxParam.scalar x => BoxParam.vec [x, x, x]
  | b => b

/-- Model of the post-init hook run at construction time, before any
file is written or subprocess started: validates the box or density
requirement and the list-length agreements, in source order, then
broadcasts a scalar box. -/
def postInit {α : Type} (data : List α) (dataIds : Option (List ℤ)) (count : List ℕ)
    (box : BoxParam) (density : Option ℚ) : Except String BoxParam :=
  if box = BoxParam.noBox ∧ density = none then
    Except.error "Either box or density must be set."
  else if data.length ≠ count.length then
    Except.error "The number of data and count must be the same."
  else
    match dataIds with
    | some ids =>
      if data.length ≠ ids.length then
        Except.error "The number of data and data_ids must be the same."
      else Except.ok (broadcastBox box)
    | none => Except.ok (broadcastBox box)

/-- Model of the box resolution at the start of run: when a density is
given, the external density-to-box estimator (get_box_from_density,
abstracted as a function argument) overwrites the box; otherwise the
configured box is kept. -/
def resolveBox {α : Type} (estimator : List α → List ℕ → ℚ → List ℚ)
    (box : Option (List ℚ)) (density : Option ℚ) (data : List α) (count : List ℕ) :
    Option (List ℚ) :=
  match density with
  | some d => some (estimator data count d)
  | none => box

/-! ## Result loading -/

/-- The structure read back from the solver output file: an abstract
payload (atom identities and positions, not interpreted here), the cell
vectors and the three per-axis periodicity flags. -/
structure AseAtoms (α : Type) where
  payload : α
  cell : List ℚ
  pbcFlags : Bool × Bool × Bool

/-- Post-hoc stamping applied after reading the solver output: when
periodicity was requested, the cell is set to the configured box and
all three axes are marked periodic; otherwise the structure is returned
unchanged. -/
def stampResult {α : Type} (pbc : Bool) (box : List ℚ) (atoms : AseAtoms α) : AseAtoms α :=
  if pbc then { atoms with cell := box, pbcFlags := (true, true, true) } else atoms

/-- The externally visible outcome of Packmol.run: the generated script
and the single stamped output structure, as a function of the raw
structure the solver produced. -/
def packmolRun {α : Type} (tolerance : ℚ) (box : List ℚ) (pbc : Bool)
    (versionString : String) (counts : List ℕ) (solverOut : AseAtoms α) :
    String × AseAtoms α :=
  (packmolScript tolerance box pbc versionString counts, stampResult pbc box solverOut)

/-- The externally visible outcome of MultiPackmol.run: the generated
scripts and the stamped output structures, one per configuration, in
configuration order. -/
def multiPackmolRun {α : Type} (draw : ℕ → ℕ → ℕ → ℕ) (seed : ℕ) (tolerance : ℚ)
    (box : List ℚ) (pbc : Bool) (versionString : String) (pools counts : List ℕ)
    (n : ℕ) (g : RngState) (solverOuts : List (AseAtoms α)) :
    List String × List (AseAtoms α) :=
  (multiPackmolScripts draw seed tolerance box pbc versionString pools counts n g,
   solverOuts.map (stampResult pbc box))

/-! ## Helper lemmas about the string primitives -/

theorem dataAppend (s t : String) : (s ++ t).data = s.data ++ t.data :=
  String.data_append s t

theorem strAppendAssoc (a b c : String) : a ++ b ++ c = a ++ (b ++ c) := by
  apply String.ext
  simp [dataAppend]

theorem leadsWith_self_append (p r : List Char) : leadsWith p (p ++ r) = true := by
  induction p with
  | nil => rfl
  | cons a as ih => simp [leadsWith, ih]

theorem occursIn_nil_pattern (l : List Char) : occursIn [] l = true := by
  induction l with
  | nil => rfl
  | cons c rest ih => simp [occursIn, leadsWith]

theorem occursIn_self_append (p b : List Char) : occursIn p (p ++ b) = true := by
  cases p with
  | nil => exact occursIn_nil_pattern b
  | cons c cs =>
    show occursIn (c :: cs) (c :: (cs ++ b)) = true
    have h := leadsWith_self_append (c :: cs) b
    simp only [List.cons_append] at h
    simp [occursIn, h]

theorem occursIn_append_mid (a p b : List Char) : occursIn p (a ++ (p ++ b)) = true := by
  induction a with
  | nil => exact occursIn_self_append p b
  | cons c cs ih => simp [occursIn, ih]

theorem strContains_mid (a p b : String) : strContains (a ++ (p ++ b)) p = true := by
  unfold strContains
  rw [dataAppend, dataAppend]
  exact occursIn_append_mid a.data p.data b.data

theorem strLeads_append (p r : String) : strLeads (p ++ r) p = true := by
  unfold strLeads
  rw [dataAppend]
  exact leadsWith_self_append p.data r.data

/-! ## Helper lemmas about the sampling model -/

theorem npChoiceList_length (draw : ℕ → ℕ → ℕ → ℕ) (P : ℕ) :
    ∀ (c : ℕ) (st : RngState), (npChoiceList draw P c st).1.length = c := by
  intro c
  induction c with
  | zero => intro st; rfl
  | succ c ih => intro st; simp [npChoiceList, ih]

theorem npChoiceList_mem_lt (draw : ℕ → ℕ → ℕ → ℕ) (P : ℕ)
    (hdraw : ∀ s k, draw s k P < P) :
    ∀ (c : ℕ) (st : RngState) (k : ℕ), k ∈ (npChoiceList draw P c st).1 → k < P := by
  intro c
  induction c with
  | zero => intro st k hk; simp [npChoiceList] at hk
  | succ c ih =>
    intro st k hk
    simp only [npChoiceList, List.mem_cons] at hk
    cases hk with
    | inl h => rw [h]; exact hdraw st.seed st.counter
    | inr h => exact ih _ k h

theorem speciesChoices_lengths (draw : ℕ → ℕ → ℕ → ℕ) :
    ∀ (pools counts : List ℕ) (st : RngState), pools.length = counts.length →
      List.Forall₂ (fun ch c => List.length ch = c) (speciesChoices draw pools counts st).1 counts := by
  intro pools
  induction pools with
  | nil =>
    intro counts st h
    cases counts with
    | nil => simp [speciesChoices]
    | cons c cs => simp at h
  | cons P ps ih =>
    intro counts st h
    cases counts with
    | nil => simp at h
    | cons c cs =>
      simp only [List.length_cons, Nat.succ.injEq] at h
      simp only [speciesChoices]
      exact List.Forall₂.cons (npChoiceList_length draw P c st) (ih cs _ h)

theorem speciesChoices_bounds (draw : ℕ → ℕ → ℕ → ℕ)
    (hdraw : ∀ s k P, 0 < P → draw s k P < P) :
    ∀ (pools counts : List ℕ) (st : RngState), pools.length = counts.length →
      List.Forall₂ (fun ch P => ∀ k ∈ ch, 0 < P → k < P)
        (speciesChoices draw pools counts st).1 pools := by
  intro pools
  induction pools with
  | nil =>
    intro counts st h
    cases counts with
    | nil => simp [speciesChoices]
    | cons c cs => simp at h
  | cons P ps ih =>
    intro counts st h
    cases counts with
    | nil => simp at h
    | cons c cs =>
      simp only [List.length_cons, Nat.succ.injEq] at h
      simp only [speciesChoices]
      refine List.Forall₂.cons ?_ (ih cs _ h)
      intro k hk hP
      exact npChoiceList_mem_lt draw P (fun s j => hdraw s j P hP) c st k hk

theorem configChoices_mem (draw : ℕ → ℕ → ℕ → ℕ) (pools counts : List ℕ)
    (Q : List (List ℕ) → Prop)
    (hQ : ∀ st, Q (speciesChoices draw pools counts st).1) :
    ∀ (n : ℕ) (st : RngState) (cfg : List (List ℕ)),
      cfg ∈ (configChoices draw pools counts n st).1 → Q cfg := by
  intro n
  induction n with
  | zero => intro st cfg h; simp [configChoices] at h
  | succ n ih =>
    intro st cfg h
    simp only [configChoices, List.mem_cons] at h
    cases h with
    | inl h => rw [h]; exact hQ st
    | inr h => exact ih _ cfg h

/-! ## Claim theorems -/

/-- C1: for every run with pbc requested and probed version below 20150
(digits concatenated), the generated script of both nodes has no pbc
directive (it is exactly the header followed by the structure blocks)
and every structure block bounds placement by the requested box shrunk
by twice the tolerance on each axis; in particular box 10,10,10 with
tolerance 2.0 renders inside box 0 0 0 6.0000 6.0000 6.0000 and the
script contains no pbc token. -/
theorem packmol_pre20150_pbc_shrinks_box (tolerance : ℚ) (box : List ℚ)
    (versionString : String) (counts : List ℕ) (draw : ℕ → ℕ → ℕ → ℕ) (seed : ℕ)
    (pools : List ℕ) (n : ℕ) (g : RngState)
    (h : versionToInt versionString < 20150) :
    (packmolScript tolerance box true versionString counts =
      packmolHeader tolerance ++
        String.join (structBlocks counts (box.map (fun x => x - 2 * tolerance)))) ∧
    (multiPackmolScripts draw seed tolerance box true versionString pools counts n g =
      (multiPackmolChoices draw seed pools counts n g).enum.map
        (fun p => multiHeader tolerance ++ multiOutputLine p.1 ++
          configBlocks (box.map (fun x => x - 2 * tolerance)) p.2)) ∧
    strContains (packmolScript 2 [10, 10, 10] true "18.0.0" [5]) "pbc" = false ∧
    strContains (packmolScript 2 [10, 10, 10] true "18.0.0" [5])
      "inside box 0 0 0 6.0000 6.0000 6.0000" = true := by
  have hv : ¬ 20150 ≤ versionToInt versionString := Nat.not_le.mpr h
  refine ⟨?_, ?_, by decide, by decide⟩
  · simp [packmolScript, scaledBoxCalc, hv, h]
  · simp [multiPackmolScripts, scaledBoxCalc, hv, h]

/-- Witness for C1 at tolerance 2.0, box 10,10,10, version 18.0.0. -/
theorem packmol_pre20150_pbc_shrinks_box_witness :
    versionToInt "18.0.0" < 20150 ∧
    packmolScript 2 [10, 10, 10] true "18.0.0" [5] =
      packmolHeader 2 ++
        String.join (structBlocks [5] ([10, 10, 10].map (fun x => x - 2 * 2))) :=
  ⟨by decide,
   (packmol_pre20150_pbc_shrinks_box 2 [10, 10, 10] "18.0.0" [5]
      (fun _ _ _ => 0) 42 [1] 1 (RngState.mk 0 0) (by decide)).1⟩

/-- C2: for every run with pbc requested and probed version at least
20150, the generated script of both nodes carries a pbc line with the
unscaled box formatted to 4 decimal places, and every structure block
uses the same unscaled box. -/
theorem packmol_ge20150_pbc_line_unscaled (tolerance : ℚ) (box : List ℚ)
    (versionString : String) (counts : List ℕ) (draw : ℕ → ℕ → ℕ → ℕ) (seed : ℕ)
    (pools : List ℕ) (n : ℕ) (g : RngState)
    (h : 20150 ≤ versionToInt versionString) :
    (packmolScript tolerance box true versionString counts =
      packmolHeader tolerance ++
        ("\n            pbc " ++ String.intercalate " " (box.map fmt4) ++
          "\n            ") ++
        String.join (structBlocks counts box)) ∧
    (multiPackmolScripts draw seed tolerance box true versionString pools counts n g =
      (multiPackmolChoices draw seed pools counts n g).enum.map
        (fun p => multiHeader tolerance ++
          ("\n            pbc " ++ String.intercalate " " (box.map fmt4) ++
            "\n            ") ++
          multiOutputLine p.1 ++ configBlocks box p.2)) ∧
    strContains (packmolScript 2 [10, 10, 10] true "20.15.1" [5])
      "pbc 10.0000 10.0000 10.0000" = true ∧
    strContains (packmolScript 2 [10, 10, 10] true "20.15.1" [5])
      "inside box 0 0 0 10.0000 10.0000 10.0000" = true := by
  refine ⟨?_, ?_, by decide, by decide⟩
  · simp [packmolScript, scaledBoxCalc, pbcChunk, boxStr4, h]
  · simp [multiPackmolScripts, scaledBoxCalc, pbcChunk, boxStr4, h]

/-- Witness for C2 at tolerance 2.0, box 10,10,10, version 20.15.1. -/
theorem packmol_ge20150_pbc_line_unscaled_witness :
    20150 ≤ versionToInt "20.15.1" ∧
    packmolScript 2 [10, 10, 10] true "20.15.1" [5] =
      packmolHeader 2 ++
        ("\n            pbc " ++ String.intercalate " " ([10, 10, 10].map fmt4) ++
          "\n            ") ++
        String.join (structBlocks [5] [10, 10, 10]) :=
  ⟨by decide,
   (packmol_ge20150_pbc_line_unscaled 2 [10, 10, 10] "20.15.1" [5]
      (fun _ _ _ => 0) 42 [1] 1 (RngState.mk 0 0) (by decide)).1⟩

/-- C3: with pbc requested, every output structure of both nodes has
its cell set to the original unscaled box and all three axes marked
periodic, independently of the probed version (and hence of which box
the script-building step used). -/
theorem packmol_output_cell_unscaled {α : Type} (tolerance : ℚ) (box : List ℚ)
    (vs vs2 : String) (counts : List ℕ) (solverOut : AseAtoms α)
    (draw : ℕ → ℕ → ℕ → ℕ) (seed : ℕ) (pools : List ℕ) (n : ℕ) (g : RngState)
    (solverOuts : List (AseAtoms α)) :
    ((packmolRun tolerance box true vs counts solverOut).2.cell = box ∧
     (packmolRun tolerance box true vs counts solverOut).2.pbcFlags = (true, true, true) ∧
     (packmolRun tolerance box true vs counts solverOut).2 =
       (packmolRun tolerance box true vs2 counts solverOut).2) ∧
    ∀ a ∈ (multiPackmolRun draw seed tolerance box true vs pools counts n g solverOuts).2,
      a.cell = box ∧ a.pbcFlags = (true, true, true) := by
  refine ⟨⟨by simp [packmolRun, stampResult], by simp [packmolRun, stampResult], rfl⟩, ?_⟩
  intro a ha
  simp only [multiPackmolRun, List.mem_map] at ha
  obtain ⟨b, _, hb⟩ := ha
  rw [← hb]
  simp [stampResult]

theorem strContains_build (x y p s : String) (hs : s = x ++ (p ++ y)) :
    strContains s p = true := by
  rw [hs]
  exact strContains_mid x p y

/-- C4: for a fixed seed and fixed pool sizes and counts, the sampled
conformer-index sequences of MultiPackmol.run do not depend on the
prior state of the global generator (np.random.seed reinstalls the
seed), so two runs agree on every configuration and species; each
per-species draw list has exactly count entries, drawn one by one with
replacement from the range below the pool size.  The generator itself
is external; it is modelled as the abstract stream draw, assumed to
produce values below the requested bound. -/
theorem multi_packmol_sampling_reproducible (draw : ℕ → ℕ → ℕ → ℕ) (seed : ℕ)
    (pools counts : List ℕ) (n : ℕ)
    (hdraw : ∀ s k P, 0 < P → draw s k P < P)
    (hlen : pools.length = counts.length) :
    (∀ g1 g2, multiPackmolChoices draw seed pools counts n g1 =
       multiPackmolChoices draw seed pools counts n g2) ∧
    ∀ g, ∀ cfg ∈ multiPackmolChoices draw seed pools counts n g,
      List.Forall₂ (fun ch c => List.length ch = c) cfg counts ∧
      List.Forall₂ (fun ch P => ∀ k ∈ ch, 0 < P → k < P) cfg pools := by
  constructor
  · intro g1 g2
    rfl
  · intro g cfg hcfg
    constructor
    · exact configChoices_mem draw pools counts
        (fun l => List.Forall₂ (fun ch c => List.length ch = c) l counts)
        (fun st => speciesChoices_lengths draw pools counts st hlen) n _ cfg hcfg
    · exact configChoices_mem draw pools counts
        (fun l => List.Forall₂ (fun ch P => ∀ k ∈ ch, 0 < P → k < P) l pools)
        (fun st => speciesChoices_bounds draw hdraw pools counts st hlen) n _ cfg hcfg

/-- Witness for C4 with a concrete bounded stream, pools 3 and 2,
counts 2 and 1, seed 42, two configurations. -/
theorem multi_packmol_sampling_reproducible_witness :
    (∀ s k P, 0 < P → (s + k) % P < P) ∧
    ([3, 2] : List ℕ).length = ([2, 1] : List ℕ).length ∧
    ((∀ g1 g2, multiPackmolChoices (fun s k P => (s + k) % P) 42 [3, 2] [2, 1] 2 g1 =
        multiPackmolChoices (fun s k P => (s + k) % P) 42 [3, 2] [2, 1] 2 g2) ∧
     ∀ g, ∀ cfg ∈ multiPackmolChoices (fun s k P => (s + k) % P) 42 [3, 2] [2, 1] 2 g,
       List.Forall₂ (fun ch c => List.length ch = c) cfg [2, 1] ∧
       List.Forall₂ (fun ch P => ∀ k ∈ ch, 0 < P → k < P) cfg [3, 2]) :=
  ⟨fun _ _ _ h => Nat.mod_lt _ h, by decide,
   multi_packmol_sampling_reproducible (fun s k P => (s + k) % P) 42 [3, 2] [2, 1] 2
     (fun _ _ _ h => Nat.mod_lt _ h) (by decide)⟩

theorem structBlock_decomp_number (i c : ℕ) (scaled : List ℚ) :
    structBlock i c scaled =
      ("\n            structure " ++ toString i ++ ".xyz\n                ") ++
        (("number " ++ toString c ++ "\n") ++
          ("                inside box 0 0 0 " ++ boxStr4 scaled ++
            "\n            end structure\n            ")) := by
  have e1 : (".xyz\n                number " : String) =
      ".xyz\n                " ++ "number " := by decide
  have e2 : ("\n                inside box 0 0 0 " : String) =
      "\n" ++ "                inside box 0 0 0 " := by decide
  have e3 : ("\n            end structure\n            " : String) =
      "" ++ "\n            end structure\n            " := by decide
  simp only [structBlock]
  rw [e1, e2]
  simp only [strAppendAssoc]

theorem structBlock_decomp_structure (i c : ℕ) (scaled : List ℚ) :
    structBlock i c scaled =
      "\n            " ++
        (("structure " ++ toString i ++ ".xyz") ++
          ("\n                number " ++ toString c ++
            "\n                inside box 0 0 0 " ++ boxStr4 scaled ++
            "\n            end structure\n            ")) := by
  have e1 : ("\n            structure " : String) = "\n            " ++ "structure " := by
    decide
  have e2 : (".xyz\n                number " : String) =
      ".xyz" ++ "\n                number " := by decide
  simp only [structBlock]
  rw [e1, e2]
  simp only [strAppendAssoc]

theorem multiStructBlock_decomp_number (j k : ℕ) (scaled : List ℚ) :
    multiStructBlock j k scaled =
      ("\n                    structure " ++ toString j ++ "_" ++ toString k ++
          ".xyz\n                        ") ++
        ("number 1\n" ++
          ("                        inside box 0 0 0 " ++ boxStr4 scaled ++
            "\n                    end structure\n                    ")) := by
  have e1 : (".xyz\n                        number 1\n                        inside box 0 0 0 " : String) =
      ".xyz\n                        " ++ "number 1\n" ++
        "                        inside box 0 0 0 " := by decide
  simp only [multiStructBlock]
  rw [e1]
  simp only [strAppendAssoc]

theorem multiStructBlock_decomp_structure (j k : ℕ) (scaled : List ℚ) :
    multiStructBlock j k scaled =
      "\n                    " ++
        (("structure " ++ toString j ++ "_" ++ toString k ++ ".xyz") ++
          ("\n                        number 1\n                        inside box 0 0 0 " ++
            boxStr4 scaled ++ "\n                    end structure\n                    ")) := by
  have e1 : ("\n                    structure " : String) =
      "\n                    " ++ "structure " := by decide
  have e2 : (".xyz\n                        number 1\n                        inside box 0 0 0 " : String) =
      ".xyz" ++ "\n                        number 1\n                        inside box 0 0 0 " := by
    decide
  simp only [multiStructBlock]
  rw [e1, e2]
  simp only [strAppendAssoc]

/-- C5: in single-configuration mode the script has exactly one
structure block per species, the block of species i carrying the
declared count of species i; in multi-configuration mode each
configuration has, per species, exactly count blocks, each declaring
number 1 and referencing the coordinate file of the sampled conformer
instance. -/
theorem structure_block_multiplicity (scaled : List ℚ) (counts : List ℕ)
    (draw : ℕ → ℕ → ℕ → ℕ) (seed : ℕ) (pools : List ℕ) (n : ℕ) (g : RngState)
    (hlen : pools.length = counts.length) :
    ((structBlocks counts scaled).length = counts.length ∧
     structBlocks counts scaled =
       counts.enum.map (fun p => structBlock p.1 p.2 scaled) ∧
     ∀ i c : ℕ,
       strContains (structBlock i c scaled) ("number " ++ toString c ++ "\n") = true ∧
       strContains (structBlock i c scaled)
         ("structure " ++ toString i ++ ".xyz") = true) ∧
    (∀ cfg ∈ multiPackmolChoices draw seed pools counts n g,
       List.Forall₂ (fun ch c => List.length ch = c) cfg counts) ∧
    (∀ cfg, configBlocks scaled cfg =
       String.join (cfg.enum.map (fun p =>
         String.join (p.2.map (fun k => multiStructBlock p.1 k scaled))))) ∧
    ∀ j k : ℕ,
      strContains (multiStructBlock j k scaled) "number 1\n" = true ∧
      strContains (multiStructBlock j k scaled)
        ("structure " ++ toString j ++ "_" ++ toString k ++ ".xyz") = true := by
  refine ⟨⟨?_, rfl, ?_⟩, ?_, fun _ => rfl, ?_⟩
  · simp [structBlocks]
  · intro i c
    constructor
    · exact strContains_build _ _ _ _ (structBlock_decomp_number i c scaled)
    · exact strContains_build _ _ _ _ (structBlock_decomp_structure i c scaled)
  · intro cfg hcfg
    exact configChoices_mem draw pools counts
      (fun l => List.Forall₂ (fun ch c => List.length ch = c) l counts)
      (fun st => speciesChoices_lengths draw pools counts st hlen) n _ cfg hcfg
  · intro j k
    constructor
    · exact strContains_build _ _ _ _ (multiStructBlock_decomp_number j k scaled)
    · exact strContains_build _ _ _ _ (multiStructBlock_decomp_structure j k scaled)

/-- Witness for C5 at concrete pools, counts and box. -/
theorem structure_block_multiplicity_witness :
    ([3] : List ℕ).length = ([2] : List ℕ).length ∧
    (structBlocks [2] [10, 10, 10]).length = ([2] : List ℕ).length ∧
    strContains (structBlock 0 2 [10, 10, 10]) ("number " ++ toString 2 ++ "\n") = true :=
  ⟨by decide,
   (structure_block_multiplicity [10, 10, 10] [2] (fun _ _ _ => 0) 42 [3] 1
      (RngState.mk 0 0) (by decide)).1.1,
   ((structure_block_multiplicity [10, 10, 10] [2] (fun _ _ _ => 0) 42 [3] 1
      (RngState.mk 0 0) (by decide)).1.2.2 0 2).1⟩

/-- C6: a length mismatch between the species list and the count list,
or between the species list and supplied fixed instance indices, makes
the construction-time post-init hook fail with a configuration error
(this hook runs before any coordinate or script file is written and
before any subprocess starts). -/
theorem post_init_rejects_length_mismatch {α : Type} (data : List α)
    (dataIds : Option (List ℤ)) (count : List ℕ) (box : BoxParam) (density : Option ℚ)
    (h : data.length ≠ count.length ∨
      ∃ ids, dataIds = some ids ∧ data.length ≠ ids.length) :
    ∃ msg, postInit data dataIds count box density = Except.error msg := by
  unfold postInit
  by_cases h1 : box = BoxParam.noBox ∧ density = none
  · exact ⟨_, by rw [if_pos h1]⟩
  · rw [if_neg h1]
    by_cases h2 : data.length ≠ count.length
    · exact ⟨_, by rw [if_pos h2]⟩
    · rw [if_neg h2]
      cases h with
      | inl hl => exact absurd hl h2
      | inr hr =>
        obtain ⟨ids, hid, hne⟩ := hr
        rw [hid]
        exact ⟨"The number of data and data_ids must be the same.", by simp [hne]⟩

/-- Witness for C6: two species but a single count entry. -/
theorem post_init_rejects_length_mismatch_witness :
    (([0, 1] : List ℕ).length ≠ ([1] : List ℕ).length ∨
      ∃ ids, (none : Option (List ℤ)) = some ids ∧
        ([0, 1] : List ℕ).length ≠ ids.length) ∧
    ∃ msg, postInit ([0, 1] : List ℕ) none [1] (BoxParam.vec [10, 10, 10]) none =
      Except.error msg :=
  ⟨Or.inl (by decide),
   post_init_rejects_length_mismatch ([0, 1] : List ℕ) none [1]
     (BoxParam.vec [10, 10, 10]) none (Or.inl (by decide))⟩

/-- C7 counterexample: giving both box and density is not rejected at
construction (postInit succeeds), and at run time the density silently
takes precedence: the resolved box is the estimator output, not the
configured box. -/
theorem both_box_and_density_accepted :
    postInit ([()] : List Unit) none [1] (BoxParam.vec [10, 10, 10]) (some 997) =
      Except.ok (BoxParam.vec [10, 10, 10]) ∧
    resolveBox (fun _ _ _ => [3, 3, 3]) (some [10, 10, 10]) (some 997)
      ([()] : List Unit) [1] = some [3, 3, 3] := by
  constructor
  · rfl
  · rfl

/-- C7 amended: at least one of box and density must be given,
validated at construction: construction fails when neither is present;
when both are given construction succeeds, and at run time the
density-derived estimate overwrites the configured box. -/
theorem box_density_validation {α : Type} (data : List α) (count : List ℕ)
    (b : List ℚ) (d : ℚ) (est : List α → List ℕ → ℚ → List ℚ)
    (hlen : data.length = count.length) :
    postInit data none count BoxParam.noBox none =
      Except.error "Either box or density must be set." ∧
    postInit data none count (BoxParam.vec b) (some d) = Except.ok (BoxParam.vec b) ∧
    resolveBox est (some b) (some d) data count = some (est data count d) := by
  refine ⟨by rw [postInit, if_pos ⟨rfl, rfl⟩], ?_, rfl⟩
  rw [postInit, if_neg (by simp), if_neg (by simp [hlen])]
  rfl

/-- Witness for C7 amended at a single species with count 1. -/
theorem box_density_validation_witness :
    ([()] : List Unit).length = ([1] : List ℕ).length ∧
    (postInit ([()] : List Unit) none [1] BoxParam.noBox none =
       Except.error "Either box or density must be set." ∧
     postInit ([()] : List Unit) none [1] (BoxParam.vec [10, 10, 10]) (some 997) =
       Except.ok (BoxParam.vec [10, 10, 10]) ∧
     resolveBox (fun _ _ d => [d, d, d]) (some [10, 10, 10]) (some 997)
       ([()] : List Unit) [1] = some [997, 997, 997]) :=
  ⟨by decide,
   box_density_validation ([()] : List Unit) [1] [10, 10, 10] 997
     (fun _ _ d => [d, d, d]) (by decide)⟩

/-- C8 counterexample: on a banner with no version token the probe does
not fail with a version-not-found error; it returns normally, with a
string starting "An error occurred:" in place of the version. -/
theorem version_probe_no_failure_on_missing_token :
    searchVersion ("no version here").data = none ∧
    getPackmolVersion (ProbeOutcome.banner "no version here") =
      "An error occurred: Could not find version in packmol output: no version here" := by
  constructor
  · decide
  · decide

/-- C8 amended: on the banner Packmol Version 18.3.0 the probe returns
the dotted version string 18.3.0; on a banner with no recognizable
version token it returns (rather than raises) the string
"An error occurred: Could not find version in packmol output: "
followed by the captured banner. -/
theorem version_probe_behaviour (t : String) (h : searchVersion t.data = none) :
    getPackmolVersion (ProbeOutcome.banner "Packmol Version 18.3.0\n") = "18.3.0" ∧
    getPackmolVersion (ProbeOutcome.banner t) =
      "An error occurred: " ++ ("Could not find version in packmol output: " ++ t) := by
  constructor
  · decide
  · simp [getPackmolVersion, h]

/-- Witness for C8 amended at the banner junk. -/
theorem version_probe_behaviour_witness :
    searchVersion ("junk").data = none ∧
    getPackmolVersion (ProbeOutcome.banner "junk") =
      "An error occurred: " ++ ("Could not find version in packmol output: " ++ "junk") :=
  ⟨by decide, (version_probe_behaviour "junk" (by decide)).2⟩

/-- C9 counterexample: the tolerance in the script header renders via
the default float conversion, as tolerance 2.0 and not tolerance
2.0000, so not every numeric value in the script has 4 decimal digits. -/
theorem tolerance_not_four_decimals :
    strContains (packmolScript 2 [10, 10, 10] false "20.15.1" [5])
      "tolerance 2.0\n" = true ∧
    strContains (packmolScript 2 [10, 10, 10] false "20.15.1" [5])
      "tolerance 2.0000" = false := by
  constructor
  · decide
  · decide

theorem digitChar_mod_isDigit (x : ℕ) : (Nat.digitChar (x % 10)).isDigit = true := by
  have h : x % 10 < 10 := Nat.mod_lt _ (by norm_num)
  have hall : ∀ k < 10, (Nat.digitChar k).isDigit = true := by decide
  exact hall _ h

/-- C9 amended: every box coordinate written into the pbc and inside
box lines goes through fmt4, which always renders a dot followed by
exactly four digit characters; the tolerance in the header however is
rendered by the default float conversion (2.0, not 2.0000). -/
theorem numeric_rendering (q tolerance : ℚ) :
    (∃ a d1 d2 d3 d4, fmt4 q = a ++ "." ++ String.mk [d1, d2, d3, d4] ∧
       d1.isDigit = true ∧ d2.isDigit = true ∧ d3.isDigit = true ∧ d4.isDigit = true) ∧
    (∀ box : List ℚ, boxStr4 box = String.intercalate " " (box.map fmt4)) ∧
    packmolHeader tolerance =
      "\n        tolerance " ++ pyFloatStr tolerance ++
        "\n        filetype xyz\n        output mixture.xyz\n        " ∧
    pyFloatStr 2 = "2.0" := by
  refine ⟨?_, fun _ => rfl, rfl, by decide⟩
  refine ⟨(if q < 0 then "-" else "") ++ toString ((rnd4 (qAbs q)).toNat / 10000),
    Nat.digitChar ((rnd4 (qAbs q)).toNat % 10000 / 1000 % 10),
    Nat.digitChar ((rnd4 (qAbs q)).toNat % 10000 / 100 % 10),
    Nat.digitChar ((rnd4 (qAbs q)).toNat % 10000 / 10 % 10),
    Nat.digitChar ((rnd4 (qAbs q)).toNat % 10000 % 10),
    rfl, digitChar_mod_isDigit _, digitChar_mod_isDigit _, digitChar_mod_isDigit _,
    digitChar_mod_isDigit _⟩

/-- C10: the version probe is total with respect to exceptions: for
every outcome of the subprocess interaction it returns a string, and
that string is either exactly the captured dotted version token from
the banner, or begins with "An error occurred:" (the deliberately
raised no-version-token error included). -/
theorem version_probe_total (o : ProbeOutcome) :
    (∃ t cap, o = ProbeOutcome.banner t ∧ searchVersion t.data = some cap ∧
       getPackmolVersion o = String.mk cap) ∨
    strLeads (getPackmolVersion o) "An error occurred:" = true := by
  have e : ("An error occurred: " : String) = "An error occurred:" ++ " " := by decide
  cases o with
  | launchFailure msg =>
    right
    show strLeads ("An error occurred: " ++ msg) "An error occurred:" = true
    rw [e, strAppendAssoc]
    exact strLeads_append _ _
  | banner t =>
    cases hs : searchVersion t.data with
    | some cap =>
      left
      exact ⟨t, cap, rfl, hs, by simp [getPackmolVersion, hs]⟩
    | none =>
      right
      have hv : getPackmolVersion (ProbeOutcome.banner t) =
          "An error occurred: " ++ ("Could not find version in packmol output: " ++ t) := by
        simp [getPackmolVersion, hs]
      rw [hv, e, strAppendAssoc]
      exact strLeads_append _ _
